import Mathlib

/-!
Verification of the Token-Trust telegram bot (src/Update32.py and
src/Update35.py), a token risk-scanner with threshold alerts and a
Stripe-gated free-scan quota.

Shallow embedding conventions:
* Python floats that only ever hold finite decimal data (prices,
  liquidity, percentages, taxes) are modelled as `ℚ`.
* Python `None` is modelled by `Option`; a Python function that may
  return `None` instead of a dict returns `Option (List (String × Value))`.
* A `try: ... except: return default` block is modelled by taking the
  outcome of the guarded HTTP request / JSON parsing as an
  `Except Err _` argument and returning the default on `.error`.
* `if cond: score += w` inside `analyze_token` is modelled as
  `let score := score + (if cond then w else 0)`; the `green_flags` /
  `red_flags` message appends on the two branches carry no score and are
  omitted.
-/

namespace TokenTrust

/-- Error information carried by a raised Python exception. -/
abbrev Err := String

/-- The four chains the bot supports ("eth", "bsc", "base", "sol"). -/
inductive Chain where
  | eth
  | bsc
  | base
  | sol
deriving DecidableEq, Repr

/--
The local variables that the scoring section of `analyze_token` reads
(src/Update32.py lines 552-613, src/Update35.py lines 656-712), after they
have been derived from the fetched provider data:
`verified`, `liquidity`, `age_days`, `whale_pct`, `owner_change`,
`market_cap`, `audit["audited"]`, `admin_ctrls`, `is_honeypot`,
`buy_tax`/`sell_tax`, `is_proxy`, `liquidity_locked`, whether GoPlus
data `gp` is present, `lp_holder_count`, `ownership_renounced`,
`holder_count` (`none` models the string "Unknown" stored when GoPlus
data is missing), `is_mintable`, `transfer_pausable`, `has_blacklist`
and the detected chain.
-/
structure ScoreInputs where
  verified : Bool
  liquidity : ℚ
  ageDays : Option ℤ
  whalePct : ℚ
  ownerChange : Bool
  marketCap : ℚ
  audited : Bool
  adminCtrls : List String
  isHoneypot : Bool
  buyTax : ℚ
  sellTax : ℚ
  isProxy : Bool
  liquidityLocked : Bool
  gpPresent : Bool
  lpHolderCount : ℤ
  ownershipRenounced : Bool
  holderCount : Option ℤ
  isMintable : Bool
  transferPausable : Bool
  hasBlacklist : Bool
  chain : Chain
deriving Repr

/--
The risk-score accumulation of `analyze_token` in src/Update32.py
(lines 615-754): `score` starts at 0, each threshold check adds its
hard-coded weight, and the result is clamped with `min(score, 100)`.
-/
def analyze_token_score32 (i : ScoreInputs) : ℤ :=
  let score : ℤ := 0
  let score := score + (if ¬ i.verified then 20 else 0)
  let score := score + (if i.liquidity ≥ 500 then 0 else 20)
  let score := score + (match i.ageDays with
    | none => 15
    | some d => if d < 7 then 15 else 0)
  let score := score + (if i.whalePct ≤ 30 then 0 else 15)
  let score := score + (if i.ownerChange then 15 else 0)
  let score := score + (if i.marketCap ≠ 0 ∧ i.marketCap ≥ 1000000 then 0
    else if i.marketCap ≠ 0 then 10 else 0)
  let score := score + (if i.audited then 0 else 20)
  let score := score + (if i.adminCtrls ≠ [] then 20 else 0)
  let score := score + (if i.isHoneypot then 30 else 0)
  let score := score + (if i.buyTax = 0 ∧ i.sellTax = 0 then 0
    else if i.buyTax > 5 ∨ i.sellTax > 5 then 10 else 0)
  let score := score + (if i.isProxy then 15 else 0)
  let score := score + (if i.liquidityLocked then 0
    else if i.gpPresent then 15 else 0)
  let score := score + (if i.lpHolderCount < 2 ∧ i.chain ≠ Chain.sol ∧ i.gpPresent then 10 else 0)
  let score := score + (if i.ownershipRenounced then 0 else 15)
  let score := score + (match i.holderCount with
    | some n => if 0 < n then (if 100 ≤ n then 0 else 10) else 0
    | none => 0)
  let score := score + (if i.isMintable then 10 else 0)
  let score := score + (if i.transferPausable then 10 else 0)
  let score := score + (if i.hasBlacklist then 15 else 0)
  min score 100

/--
The risk-score accumulation of `analyze_token` in src/Update35.py
(lines 714-850); the Python code is identical to the Update32 block.
-/
def analyze_token_score35 (i : ScoreInputs) : ℤ :=
  let score : ℤ := 0
  let score := score + (if ¬ i.verified then 20 else 0)
  let score := score + (if i.liquidity ≥ 500 then 0 else 20)
  let score := score + (match i.ageDays with
    | none => 15
    | some d => if d < 7 then 15 else 0)
  let score := score + (if i.whalePct ≤ 30 then 0 else 15)
  let score := score + (if i.ownerChange then 15 else 0)
  let score := score + (if i.marketCap ≠ 0 ∧ i.marketCap ≥ 1000000 then 0
    else if i.marketCap ≠ 0 then 10 else 0)
  let score := score + (if i.audited then 0 else 20)
  let score := score + (if i.adminCtrls ≠ [] then 20 else 0)
  let score := score + (if i.isHoneypot then 30 else 0)
  let score := score + (if i.buyTax = 0 ∧ i.sellTax = 0 then 0
    else if i.buyTax > 5 ∨ i.sellTax > 5 then 10 else 0)
  let score := score + (if i.isProxy then 15 else 0)
  let score := score + (if i.liquidityLocked then 0
    else if i.gpPresent then 15 else 0)
  let score := score + (if i.lpHolderCount < 2 ∧ i.chain ≠ Chain.sol ∧ i.gpPresent then 10 else 0)
  let score := score + (if i.ownershipRenounced then 0 else 15)
  let score := score + (match i.holderCount with
    | some n => if 0 < n then (if 100 ≤ n then 0 else 10) else 0
    | none => 0)
  let score := score + (if i.isMintable then 10 else 0)
  let score := score + (if i.transferPausable then 10 else 0)
  let score := score + (if i.hasBlacklist then 15 else 0)
  min score 100

/--
Modelled from the spec and claim wording, for comparison with the code:
"the risk score is the sum of fixed hard-coded weights, one added
independently for each threshold check whose condition holds, and the
sum is clamped to 100".
-/
def specRiskScore (i : ScoreInputs) : ℤ :=
  min
    ((if ¬ i.verified then (20 : ℤ) else 0) +
     (if i.liquidity < 500 then 20 else 0) +
     (match i.ageDays with
       | none => (15 : ℤ)
       | some d => if d < 7 then 15 else 0) +
     (if i.whalePct > 30 then 15 else 0) +
     (if i.ownerChange then 15 else 0) +
     (if i.marketCap ≠ 0 ∧ i.marketCap < 1000000 then 10 else 0) +
     (if ¬ i.audited then 20 else 0) +
     (if i.adminCtrls ≠ [] then 20 else 0) +
     (if i.isHoneypot then 30 else 0) +
     (if i.buyTax > 5 ∨ i.sellTax > 5 then 10 else 0) +
     (if i.isProxy then 15 else 0) +
     (if ¬ i.liquidityLocked ∧ i.gpPresent then 15 else 0) +
     (if i.lpHolderCount < 2 ∧ i.chain ≠ Chain.sol ∧ i.gpPresent then 10 else 0) +
     (if ¬ i.ownershipRenounced then 15 else 0) +
     (match i.holderCount with
       | some n => if 0 < n ∧ n < 100 then (10 : ℤ) else 0
       | none => 0) +
     (if i.isMintable then 10 else 0) +
     (if i.transferPausable then 10 else 0) +
     (if i.hasBlacklist then 15 else 0))
    100

/-- `get_risk_label` from src/Update32.py (lines 348-357). -/
def get_risk_label32 (score : ℤ) : String :=
  if score ≤ 20 then "✅ Very Low"
  else if score ≤ 40 then "🟢 Low"
  else if score ≤ 60 then "🟡 Medium"
  else if score ≤ 80 then "🟠 High"
  else "🔴 Very High"

/-- `get_risk_label` from src/Update35.py (lines 451-460). -/
def get_risk_label35 (score : ℤ) : String :=
  if score ≤ 20 then "✅ Very Low"
  else if score ≤ 40 then "🟢 Low"
  else if score ≤ 60 then "🟡 Medium"
  else if score ≤ 80 then "🟠 High"
  else "🔴 Very High"

/--
`can_scan` from src/Update35.py (lines 125-139), as a state transition on
the user's `total_scans` row of the `users` table. `premium` is the result
of the `is_premium(user_id)` call; `row` is `none` when the user has no
row yet (the function then inserts `(user_id, 0)` and allows the scan) and
`some n` when the row holds `total_scans = n`. The returned pair is the
boolean result together with the row after the call.
-/
def can_scan (premium : Bool) (row : Option ℕ) : Bool × Option ℕ :=
  if premium then (true, row)
  else
    match row with
    | none => (true, some 0)
    | some total_scans =>
      if total_scans < 3 then (true, some (total_scans + 1))
      else (false, some total_scans)

/-- The two replies `analyze_token` in src/Update35.py can give at its
quota gate (lines 595-609): if `can_scan` returned `False` it sends the
upgrade prompt and returns, otherwise it goes on to produce the report. -/
inductive ScanReply where
  | upgradePrompt
  | report
deriving DecidableEq, Repr

/-- The quota gate at the top of `analyze_token` in src/Update35.py
(lines 595-609): `if not can_scan(user_id): ...reply upgrade prompt...;
return`. -/
def analyze_token_gate (canScanResult : Bool) : ScanReply :=
  if ¬ canScanResult then ScanReply.upgradePrompt else ScanReply.report

/-- The SQLite tables of src/Update35.py. -/
inductive TableName where
  | users
  | alerts
deriving DecidableEq, Repr

/-- Kinds of SQL statements executed through `c.execute`. -/
inductive SqlKind where
  | createTable
  | selectRows
  | insertRow
  | updateRows
  | deleteRows
deriving DecidableEq, Repr

/-- One `c.execute(...)` site in src/Update35.py. -/
structure SqlSite where
  kind : SqlKind
  table : TableName
deriving DecidableEq, Repr

/--
Every `c.execute(...)` site of src/Update35.py in source order:
lines 43-44 (schema), 74, 82, 87, 94 (`webhook`), 101, 112, 117, 121
(`is_premium`), 128, 131, 136 (`can_scan`), 1160 (`handle_token`),
1189 (`reset_scans`), 1196 (`premium_status`), 1213, 1218, 1225
(`sync_stripe_subs`), 1232 and 1286 (`alert_check`).
-/
def dbStatements : List SqlSite :=
  [⟨SqlKind.createTable, TableName.users⟩,
   ⟨SqlKind.createTable, TableName.alerts⟩,
   ⟨SqlKind.updateRows, TableName.users⟩,
   ⟨SqlKind.selectRows, TableName.users⟩,
   ⟨SqlKind.updateRows, TableName.users⟩,
   ⟨SqlKind.updateRows, TableName.users⟩,
   ⟨SqlKind.selectRows, TableName.users⟩,
   ⟨SqlKind.updateRows, TableName.users⟩,
   ⟨SqlKind.updateRows, TableName.users⟩,
   ⟨SqlKind.updateRows, TableName.users⟩,
   ⟨SqlKind.selectRows, TableName.users⟩,
   ⟨SqlKind.insertRow, TableName.users⟩,
   ⟨SqlKind.updateRows, TableName.users⟩,
   ⟨SqlKind.insertRow, TableName.alerts⟩,
   ⟨SqlKind.updateRows, TableName.users⟩,
   ⟨SqlKind.selectRows, TableName.users⟩,
   ⟨SqlKind.selectRows, TableName.users⟩,
   ⟨SqlKind.updateRows, TableName.users⟩,
   ⟨SqlKind.updateRows, TableName.users⟩,
   ⟨SqlKind.selectRows, TableName.alerts⟩,
   ⟨SqlKind.deleteRows, TableName.alerts⟩]

/-- The tables created by the `CREATE TABLE IF NOT EXISTS` statements
(src/Update35.py lines 43-44). -/
def createdTables : List TableName :=
  (dbStatements.filter (fun s => s.kind = SqlKind.createTable)).map (fun s => s.table)

/--
One stored alert. In src/Update32.py these live in the nested dict
`alerts[user_id][addr] = {'set_value', 'percent', 'direction', 'name',
'alert_type'}`; in src/Update35.py they are the rows of the `alerts`
table, whose primary key is `(user_id, addr)`. Either way the pair
`(userId, addr)` identifies an alert uniquely.
-/
structure AlertRec where
  userId : ℤ
  addr : String
  set_value : ℚ
  percent : ℚ
  direction : String
  name : String
  alert_type : String
deriving DecidableEq, Repr

/-- The `(user_id, addr)` key of a stored alert. -/
def alertKey (r : AlertRec) : ℤ × String := (r.userId, r.addr)

/--
The current value `alert_check` looks up for an alert:
`prices.get(addr) if alert_type == 'price' else liquidities.get(addr)`.
`fp addr` / `fl addr` model `get_current_price(addr)` /
`get_current_liquidity(addr)` for this sweep, already filtered by the
`if current != "0"` guard: `some v` is a nonzero value string with
numeric value `v`, `none` is the sentinel string "0" (fetch failed), in
which case the address is absent from the `prices` / `liquidities` dict.
-/
def alertCurrent (fp fl : String → Option ℚ) (r : AlertRec) : Option ℚ :=
  if r.alert_type = "price" then fp r.addr else fl r.addr

/-- The threshold computed in `alert_check` (src/Update32.py line 1122,
src/Update35.py line 1272): `Decimal(set_value) * Decimal(1 + percent / 100)`
for 'increase', `Decimal(set_value) * Decimal(1 - percent / 100)` otherwise. -/
def alertThreshold (r : AlertRec) : ℚ :=
  if r.direction = "increase" then r.set_value * (1 + r.percent / 100)
  else r.set_value * (1 - r.percent / 100)

/-- The per-alert body of the `alert_check` loop: skip if the current
value is absent, otherwise notify (and mark for deletion) exactly when
`(direction == 'increase' and current >= threshold) or
(direction == 'decrease' and current <= threshold)`. -/
def alertFires (fp fl : String → Option ℚ) (r : AlertRec) : Bool :=
  match alertCurrent fp fl r with
  | none => false
  | some v =>
    decide ((r.direction = "increase" ∧ alertThreshold r ≤ v) ∨
            (r.direction = "decrease" ∧ v ≤ alertThreshold r))

/-- The `to_delete` list built by one sweep of `alert_check`: for each
stored alert, in iteration order, the pair `(user_id, addr)` is appended
right after the notification message is sent. -/
def sweepNotify (fp fl : String → Option ℚ) : List AlertRec → List (ℤ × String)
  | [] => []
  | r :: rest =>
    (if alertFires fp fl r then [alertKey r] else []) ++ sweepNotify fp fl rest

/--
One sweep of `alert_check` (src/Update32.py lines 1090-1138,
src/Update35.py lines 1231-1287) over the alert store: the first
component is the list of `(user_id, addr)` keys that were notified
(`to_delete`), the second is the store after the deletion loop
(`del alerts[user_id][addr]` / `DELETE FROM alerts WHERE user_id = ?
AND addr = ?` for each notified key).
-/
def alert_check (fp fl : String → Option ℚ) (st : List AlertRec) :
    List (ℤ × String) × List AlertRec :=
  let toDelete := sweepNotify fp fl st
  (toDelete, st.filter (fun r => decide (alertKey r ∉ toDelete)))

/-- Key distinctness of the alert store: guaranteed by the nested-dict
shape in src/Update32.py and by `PRIMARY KEY (user_id, addr)` in
src/Update35.py. -/
def KeysDistinct (st : List AlertRec) : Prop :=
  st.Pairwise (fun a b => alertKey a ≠ alertKey b)

/-- A job registered with `app.job_queue.run_repeating(fn, interval, first)`. -/
structure RepeatingJob where
  interval : ℕ
  first : ℕ
deriving DecidableEq, Repr

/-- The alert sweep registration
`app.job_queue.run_repeating(alert_check, interval=60, first=0)`
(src/Update32.py line 1145, src/Update35.py line 1302). -/
def alert_check_job : RepeatingJob := ⟨60, 0⟩

/-- The two ways `stripe.Webhook.construct_event` can fail in the
`/webhook` handler of src/Update35.py: a `ValueError` from an unparsable
payload, or a `SignatureVerificationError` from a bad
`stripe-signature` header. -/
inductive WebhookErr where
  | invalidPayload
  | invalidSignature
deriving DecidableEq, Repr

/-- One row of the `users` table of src/Update35.py (line 43). The
`expiry_date` DATETIME string is modelled by the day number it encodes. -/
structure UserRow where
  user_id : ℤ
  is_premium : Bool
  subscription_id : Option String
  expiry_date : Option ℤ
  total_scans : ℤ
deriving DecidableEq, Repr

/-- A successfully verified Stripe event, restricted to the fields the
`/webhook` handler reads. -/
inductive StripeEvent where
  | checkoutSessionCompleted (client_reference_id : ℤ) (subscription : String)
  | invoicePaymentSucceeded (subscription : String)
  | customerSubscriptionDeleted (id : String)
  | otherEvent (eventType : String)
deriving DecidableEq, Repr

/--
The `/webhook` POST handler of src/Update35.py (lines 54-98). `parsed`
is the outcome of `stripe.Webhook.construct_event`; on failure the
handler raises `HTTPException(status_code=400)` before any database
access. `now` is the current day; `expiry = datetime.now() +
timedelta(days=30)` becomes `now + 30`. The result is the HTTP status
together with the `users` table after the request. The
`invoice.payment_succeeded` branch calls `datetime.strptime` on the
stored expiry; when that row's expiry is NULL the call raises, FastAPI
answers 500, and no row was written.
-/
def webhook (now : ℤ) (parsed : Except WebhookErr StripeEvent)
    (users : List UserRow) : ℕ × List UserRow :=
  match parsed with
  | .error _ => (400, users)
  | .ok ev =>
    match ev with
    | .checkoutSessionCompleted uid sub =>
      (200, users.map (fun u =>
        if u.user_id = uid then
          { u with is_premium := true, subscription_id := some sub,
                   expiry_date := some (now + 30) }
        else u))
    | .invoicePaymentSucceeded sub =>
      match users.find? (fun u => u.subscription_id == some sub) with
      | some row =>
        match row.expiry_date with
        | some exp =>
          (200, users.map (fun u =>
            if u.user_id = row.user_id then { u with expiry_date := some (exp + 30) }
            else u))
        | none => (500, users)
      | none => (200, users)
    | .customerSubscriptionDeleted sub =>
      (200, users.map (fun u =>
        if u.subscription_id = some sub then
          { u with is_premium := false, subscription_id := none,
                   expiry_date := none }
        else u))
    | .otherEvent _ => (200, users)

/-- A JSON-like value, used to model the dicts the fetch functions
return. -/
inductive Value where
  | vStr : String → Value
  | vNum : ℚ → Value
  | vInt : ℤ → Value
  | vBool : Bool → Value
  | vNull : Value
  | vList : List Value → Value
  | vDict : List (String × Value) → Value

/-- A scalar (non-list, non-dict) value. -/
def Value.isScalar : Value → Bool
  | .vList _ => false
  | .vDict _ => false
  | _ => true

/-- `some s` as a dict value, Python `None` as JSON null. -/
def optValStr : Option String → Value
  | some s => Value.vStr s
  | none => Value.vNull

/-- Python `x or dflt` on a string that may be missing (`none`) or
empty (both falsy). -/
def pyOrStr (x : Option String) (dflt : String) : String :=
  match x with
  | some s => if s = "" then dflt else s
  | none => dflt

/-- Python `int(q)` on a float: truncation toward zero. -/
def truncQ (q : ℚ) : ℤ := if 0 ≤ q then ⌊q⌋ else ⌈q⌉

/-- Python float `a % b`: floored modulo, `a - b * floor(a / b)`. -/
def pyMod (a b : ℚ) : ℚ := a - b * ⌊a / b⌋

/-- The member of `r["result"]` that `etherscan_data` reads:
`SourceCode` and `ContractName` of `info = r["result"][0]`, each
possibly missing. -/
structure EsInfo where
  SourceCode : Option String
  ContractName : Option String

/-- The JSON document `etherscan_data` parses: `status` (possibly
missing) and the `result` list. -/
structure EsResp where
  status : Option String
  result : List EsInfo

/--
`etherscan_data` (src/Update32.py lines 140-156, src/Update35.py lines
250-266). The guarded `requests.get(...).json()` outcome is `resp`; any
raised exception is logged and `{}` is returned. On success, if
`r.get("status") == "1" and r.get("result")` the four-field dict is
built from `result[0]`, with `verified = info.get("SourceCode") not in
(None, "", "Contract source code not verified")`; otherwise the final
`return {}` is reached.
-/
def etherscan_data (resp : Except Err EsResp) : List (String × Value) :=
  match resp with
  | .error _ => []
  | .ok r =>
    if r.status = some "1" then
      match r.result with
      | [] => []
      | info :: _ =>
        [("verified", Value.vBool (decide (info.SourceCode ≠ none ∧
            info.SourceCode ≠ some "" ∧
            info.SourceCode ≠ some "Contract source code not verified"))),
         ("name", Value.vStr (info.ContractName.getD "Unknown")),
         ("symbol", Value.vStr "N/A"),
         ("source_code", Value.vStr (info.SourceCode.getD ""))]
    else []

/-- The fields of `pairs[0]` that `dexscreener_data` reads. -/
structure DsPair where
  volumeH24 : Option String
  liquidityUsd : Option String
  fdv : Option String
  pairCreatedAt : Option ℤ
  url : Option String
  chainId : Option String
  priceUsd : Option String
  socials : List Value
  websites : List Value
  imageUrl : Option String
  priceChangeH24 : Option ℚ
  baseToken : List (String × Value)

/-- The dict `dexscreener_data` builds from the first pair `p`
(src/Update32.py lines 236-259); `now` is `time.time()`. -/
def dsDict (now : ℚ) (p : DsPair) : List (String × Value) :=
  let vol := pyOrStr p.volumeH24 "0"
  let liq := pyOrStr p.liquidityUsd "0"
  let fdvS := pyOrStr p.fdv "0"
  let cca : ℤ := p.pairCreatedAt.getD 0
  let ageSeconds : Option ℚ := if cca ≠ 0 then some (now - (cca : ℚ) / 1000) else none
  let ageDays : Option ℤ :=
    match ageSeconds with
    | some s => if s ≠ 0 then some (truncQ (s / 86400)) else none
    | none => none
  let ageHours : Option ℤ :=
    match ageSeconds with
    | some s =>
      if s ≠ 0 ∧ ageDays = some 0 then some (truncQ (pyMod s 86400 / 3600)) else none
    | none => none
  [("volume", Value.vStr vol),
   ("liquidity", Value.vStr liq),
   ("fdv", Value.vStr fdvS),
   ("age_days", match ageDays with | some d => Value.vInt d | none => Value.vNull),
   ("age_hours", match ageHours with | some h => Value.vInt h | none => Value.vNull),
   ("chart", optValStr p.url),
   ("chainId", Value.vStr ((p.chainId.getD "").toLower)),
   ("priceUsd", Value.vStr (p.priceUsd.getD "0")),
   ("socials", Value.vList p.socials),
   ("websites", Value.vList p.websites),
   ("image", optValStr p.imageUrl),
   ("price_change_24h", Value.vNum (p.priceChangeH24.getD 0)),
   ("baseToken", Value.vDict p.baseToken)]

/--
`dexscreener_data` (src/Update32.py lines 230-262, src/Update35.py lines
338-370). `resp` is the outcome of the guarded request: the parsed
`pairs` list on success. Any exception is logged and `None` returned;
an empty `pairs` list falls through the `if pairs:` and also yields
`None`.
-/
def dexscreener_data (now : ℚ) (resp : Except Err (List DsPair)) :
    Option (List (String × Value)) :=
  match resp with
  | .error _ => none
  | .ok [] => none
  | .ok (p :: _) => some (dsDict now p)

/-- `ds.get(key, "0")` on a dict in our model, for the two string fields
`get_current_price` / `get_current_liquidity` read. -/
def dictGetStr (d : List (String × Value)) (k : String) (dflt : String) : String :=
  match d.lookup k with
  | some (Value.vStr s) => s
  | some _ => dflt
  | none => dflt

/-- `get_current_price` (src/Update32.py lines 87-91): returns
`ds.get("priceUsd", "0")` when `dexscreener_data` gave a dict, else "0". -/
def get_current_price (now : ℚ) (resp : Except Err (List DsPair)) : String :=
  match dexscreener_data now resp with
  | some ds => dictGetStr ds "priceUsd" "0"
  | none => "0"

/-- `get_current_liquidity` (src/Update32.py lines 94-98): returns
`ds.get("liquidity", "0")` when `dexscreener_data` gave a dict, else "0". -/
def get_current_liquidity (now : ℚ) (resp : Except Err (List DsPair)) : String :=
  match dexscreener_data now resp with
  | some ds => dictGetStr ds "liquidity" "0"
  | none => "0"

/-- The fields of the CoinGecko contract document that
`coingecko_description` reads. `hasError` models `"error" in data`. -/
structure CgRaw where
  hasError : Bool
  descriptionEn : Option String
  categories : Option (List Value)
  name : Option String
  symbol : Option String
  marketCapUsd : Option ℚ
  imageLarge : Option String
  imageSmall : Option String
  links : List (String × Value)
  priceChange24h : Option ℚ
  priceChange7d : Option ℚ

/-- Python `a or b` on two possibly-missing strings (missing and empty
are falsy). -/
def pyOr (a b : Option String) : Option String :=
  match a with
  | some s => if s = "" then b else some s
  | none => b

/-- The dict `coingecko_description` builds on success
(src/Update32.py lines 369-385). -/
def cgDict (r : CgRaw) : List (String × Value) :=
  [("description", Value.vStr ((r.descriptionEn.getD "").trim)),
   ("tags", Value.vList (r.categories.getD [])),
   ("name", optValStr r.name),
   ("symbol", optValStr r.symbol),
   ("market_cap", Value.vNum (r.marketCapUsd.getD 0)),
   ("image", optValStr (pyOr r.imageLarge r.imageSmall)),
   ("links", Value.vDict r.links),
   ("price_change_24h", Value.vNum (r.priceChange24h.getD 0)),
   ("price_change_7d", Value.vNum (r.priceChange7d.getD 0))]

/--
`coingecko_description` (src/Update32.py lines 359-388, src/Update35.py
lines 462-491). The platform map has no entry for "sol", so that chain
returns `None` before any request; a raised exception returns `None`;
a document containing "error" returns `None`.
-/
def coingecko_description (chain : Chain) (resp : Except Err CgRaw) :
    Option (List (String × Value)) :=
  match chain with
  | Chain.sol => none
  | _ =>
    match resp with
    | .error _ => none
    | .ok r => if r.hasError then none else some (cgDict r)

/-- The fields of the GoPlus `token_data` record that `goplus_data`
reads before mutating it. String-typed numeric fields are carried as
their parsed `ℚ` value (`none` for missing or falsy). `holders` is the
list of `float(h.get("percent", 0))` values; `lp_holders` is kept raw. -/
structure GpRaw where
  holders : Option (List ℚ)
  creator_percent : Option ℚ
  owner_percentage : Option ℚ
  is_honeypot : Option String
  cannot_sell_all : Option String
  buy_tax : Option ℚ
  sell_tax : Option ℚ
  is_proxy : Option String
  lp_locked : Option String
  locked_percentage : Option ℚ
  owner_address : Option String
  is_mintable : Option String
  holder_count : Option ℤ
  lp_holders : Option (List Value)
  total_supply : Option String
  transfer_pausable : Option String
  is_blacklisted : Option String
  is_whitelisted : Option String
  is_anti_whale : Option String
  mint_authority : Option String
  freeze_authority : Option String
  supply : Option String
  top_10_holder_rate : Option ℚ

/--
The mutated `token_data` dict `goplus_data` returns (src/Update32.py
lines 293-333). The raw `holders` / `lp_holders` lists stay in the dict
(the code only adds or overwrites keys); all computed keys follow, in
source order, including the Solana-specific overrides when
`chain == "sol"`.
-/
def goplusDict (chain : Chain) (r : GpRaw) : List (String × Value) :=
  let max_pct : ℚ :=
    match r.holders with
    | some (h :: t) => (h :: t).foldl max 0
    | _ =>
      if r.creator_percent.getD 0 ≠ 0 then r.creator_percent.getD 0
      else r.owner_percentage.getD 0
  let buy_tax : ℚ := match r.buy_tax with | some v => v * 100 | none => 0
  let sell_tax : ℚ := match r.sell_tax with | some v => v * 100 | none => 0
  let ownership_renounced : Prop :=
    r.owner_address = none ∨ r.owner_address = some "" ∨
    r.owner_address = some "0x0000000000000000000000000000000000000000" ∨
    r.owner_address = some "0x000000000000000000000000000000000000dead" ∨
    r.is_mintable = some "0"
  (match r.holders with
   | some hs => [("holders", Value.vList (hs.map Value.vNum))]
   | none => []) ++
  (match r.lp_holders with
   | some ls => [("lp_holders", Value.vList ls)]
   | none => []) ++
  [("max_holder_percent", Value.vNum (max_pct * 100)),
   ("is_honeypot", Value.vBool (decide (r.is_honeypot = some "1" ∨
      r.cannot_sell_all = some "1"))),
   ("buy_tax", Value.vNum (if chain = Chain.sol then 0 else buy_tax)),
   ("sell_tax", Value.vNum (if chain = Chain.sol then 0 else sell_tax)),
   ("is_proxy", Value.vBool (decide (r.is_proxy = some "1"))),
   ("liquidity_locked", Value.vBool (decide (r.lp_locked = some "1" ∨
      r.locked_percentage.getD 0 > 0))),
   ("locked_percentage", Value.vNum (r.locked_percentage.getD 0)),
   ("ownership_renounced", Value.vBool (if chain = Chain.sol then
      decide (r.mint_authority = none ∧ r.freeze_authority = none)
    else decide ownership_renounced)),
   ("holder_count", Value.vInt (r.holder_count.getD 0)),
   ("lp_holder_count", Value.vInt ((r.lp_holders.getD []).length : ℤ)),
   ("total_supply", Value.vStr (if chain = Chain.sol then r.supply.getD "0"
      else r.total_supply.getD "0")),
   ("is_mintable", Value.vBool (decide (r.is_mintable = some "1"))),
   ("transfer_pausable", Value.vBool (decide (r.transfer_pausable = some "1"))),
   ("has_blacklist", Value.vBool (decide (r.is_blacklisted = some "1"))),
   ("has_whitelist", Value.vBool (decide (r.is_whitelisted = some "1"))),
   ("is_anti_whale", Value.vBool (decide (r.is_anti_whale = some "1")))] ++
  (if chain = Chain.sol then
    [("top_10_holder_rate", Value.vNum (r.top_10_holder_rate.getD 0))]
  else [])

/--
`goplus_data` (src/Update32.py lines 264-346, src/Update35.py lines
372-449). `resp` is the outcome of the guarded request and parsing:
`.ok none` models a response whose `result` lacks the address (the
`if not token_data:` branch) and `.ok (some r)` a usable record. Every
listed exception handler logs and returns `None`.
-/
def goplus_data (chain : Chain) (resp : Except Err (Option GpRaw)) :
    Option (List (String × Value)) :=
  match resp with
  | .error _ => none
  | .ok none => none
  | .ok (some r) => some (goplusDict chain r)

/-- The data `solana_data` assembles from its Helius RPC calls:
`getAsset` metadata and content flag, the optional offchain document
(description, socials, image), `getTokenSupply` (the amount string,
default "0", with `totalSupplyVal` its `float(...)` value) and
`getTokenLargestAccounts` (pairs of address and `float(amount)`). -/
structure SolRaw where
  name : Option String
  symbol : Option String
  contentPresent : Bool
  description : Option String
  socials : List Value
  image : Option String
  totalSupply : String
  totalSupplyVal : ℚ
  mintAuthority : Option String
  freezeAuthority : Option String
  largest : List (String × ℚ)

/-- The top-holder list `solana_data` computes (src/Update32.py lines
205-211): empty when the supply string is "0", else the first five
largest accounts with their percentages. -/
def solHolders (r : SolRaw) : List Value :=
  if r.totalSupply ≠ "0" then
    (r.largest.take 5).map (fun a =>
      Value.vDict
        [("address", Value.vStr a.1),
         ("percent", Value.vNum (if r.totalSupplyVal > 0 then
            a.2 / r.totalSupplyVal * 100 else 0))])
  else []

/-- The dict `solana_data` returns on success (src/Update32.py lines
213-225). -/
def solDict (r : SolRaw) : List (String × Value) :=
  [("name", Value.vStr (r.name.getD "Unknown")),
   ("symbol", Value.vStr (r.symbol.getD "N/A")),
   ("verified", Value.vBool r.contentPresent),
   ("source_code", Value.vStr ""),
   ("description", optValStr r.description),
   ("socials", Value.vList r.socials),
   ("total_supply", Value.vStr r.totalSupply),
   ("image", optValStr r.image),
   ("mint_authority", optValStr r.mintAuthority),
   ("freeze_authority", optValStr r.freezeAuthority),
   ("holders", Value.vList (solHolders r))]

/--
`solana_data` (src/Update32.py lines 158-228, src/Update35.py lines
268-336). A missing `HELIUS_API_KEY` also returns `{}` before any
request (not modelled: the key is environment configuration); any
exception raised by the outer `try` is logged and `{}` returned.
-/
def solana_data (resp : Except Err SolRaw) : List (String × Value) :=
  match resp with
  | .error _ => []
  | .ok r => solDict r

/-- The parsed document `get_launch_date` reads: `status` and the
timestamps (`int(tx["timeStamp"])`) of the `result` transactions. -/
structure TxResp where
  status : String
  result : List ℤ

/--
`get_launch_date` (src/Update32.py lines 116-138, src/Update35.py lines
226-248). Chains outside eth/bsc/base return `(None, None, None)`
before any request; so does any raised exception or a document without
`status == "1"` and a nonempty `result`. The first component is the
launch timestamp (which the source formats into a date string with
`time.strftime`); `now` is `time.time()`.
-/
def get_launch_date (chain : Chain) (now : ℚ) (resp : Except Err TxResp) :
    Option ℤ × Option ℤ × Option ℤ :=
  match chain with
  | Chain.sol => (none, none, none)
  | _ =>
    match resp with
    | .error _ => (none, none, none)
    | .ok r =>
      if r.status = "1" then
        match r.result with
        | [] => (none, none, none)
        | ts :: _ =>
          let ageSeconds : ℚ := now - (ts : ℚ)
          let ageDays : ℤ := truncQ (ageSeconds / 86400)
          let ageHours : Option ℤ :=
            if ageDays = 0 then some (truncQ (pyMod ageSeconds 86400 / 3600))
            else none
          (some ts, some ageDays, ageHours)
      else (none, none, none)

/-- The base URL `etherscan_data` requests, by chain
(src/Update32.py line 142): eth, bsc, and basescan for everything else. -/
def etherscanEndpoint (chain : Chain) : String :=
  match chain with
  | Chain.eth => "https://api.etherscan.io/api"
  | Chain.bsc => "https://api.bscscan.com/api"
  | _ => "https://api.basescan.org/api"

/-- The endpoints one call to `etherscan_data` requests. -/
def etherscanEndpoints (chain : Chain) : List String := [etherscanEndpoint chain]

/-- The endpoints one call to `dexscreener_data` requests
(src/Update32.py line 232). -/
def dexscreenerEndpoints : List String :=
  ["https://api.dexscreener.com/latest/dex/search"]

/-- The endpoints one call to `goplus_data` requests (src/Update32.py
lines 265-275): the per-chain token_security URL. -/
def goplusEndpoints (chain : Chain) : List String :=
  match chain with
  | Chain.eth => ["https://api.gopluslabs.io/api/v1/token_security/1"]
  | Chain.bsc => ["https://api.gopluslabs.io/api/v1/token_security/56"]
  | Chain.base => ["https://api.gopluslabs.io/api/v1/token_security/8453"]
  | Chain.sol => ["https://api.gopluslabs.io/api/v1/token_security/solana"]

/-- The endpoints one call to `coingecko_description` requests
(src/Update32.py lines 362-366): none at all for "sol", whose platform
lookup fails before the request. -/
def coingeckoEndpoints (chain : Chain) : List String :=
  match chain with
  | Chain.eth => ["https://api.coingecko.com/api/v3/coins/ethereum/contract"]
  | Chain.bsc => ["https://api.coingecko.com/api/v3/coins/binance-smart-chain/contract"]
  | Chain.base => ["https://api.coingecko.com/api/v3/coins/base/contract"]
  | Chain.sol => []

/-- The endpoints one (non-failing) call to `solana_data` requests
(src/Update32.py lines 165, 175, 198, 203): the Helius RPC for
`getAsset`, the offchain `json_uri` when the asset has one, then the
Helius RPC again for `getTokenSupply` and `getTokenLargestAccounts`. -/
def solanaEndpoints (jsonUri : Option String) : List String :=
  ["https://mainnet.helius-rpc.com/ getAsset"] ++
  (match jsonUri with | some u => [u] | none => []) ++
  ["https://mainnet.helius-rpc.com/ getTokenSupply",
   "https://mainnet.helius-rpc.com/ getTokenLargestAccounts"]

theorem liq_term (l : ℚ) : (if l ≥ 500 then (0 : ℤ) else 20) = if l < 500 then 20 else 0 := by
  by_cases h : l < 500
  · rw [if_pos h, if_neg (not_le.mpr h)]
  · rw [if_pos (not_lt.mp h), if_neg h]

theorem whale_term (w : ℚ) : (if w ≤ 30 then (0 : ℤ) else 15) = if w > 30 then 15 else 0 := by
  by_cases h : w ≤ 30
  · rw [if_pos h, if_neg (not_lt.mpr h)]
  · rw [if_neg h, if_pos (not_le.mp h)]

theorem mc_term (mc : ℚ) :
    (if mc ≠ 0 ∧ mc ≥ 1000000 then (0 : ℤ) else if mc ≠ 0 then 10 else 0) =
      if mc ≠ 0 ∧ mc < 1000000 then 10 else 0 := by
  by_cases h0 : mc = 0
  · simp [h0]
  · by_cases h1 : mc ≥ 1000000
    · rw [if_pos ⟨h0, h1⟩, if_neg (fun hc => absurd hc.2 (not_lt.mpr h1))]
    · rw [if_neg (fun hc => absurd hc.2 h1), if_pos h0, if_pos ⟨h0, not_le.mp h1⟩]

theorem tax_term (b s : ℚ) :
    (if b = 0 ∧ s = 0 then (0 : ℤ) else if b > 5 ∨ s > 5 then 10 else 0) =
      if b > 5 ∨ s > 5 then 10 else 0 := by
  by_cases hz : b = 0 ∧ s = 0
  · have hno : ¬ (b > 5 ∨ s > 5) := by
      rintro (h | h)
      · rw [hz.1] at h; norm_num at h
      · rw [hz.2] at h; norm_num at h
    rw [if_pos hz, if_neg hno]
  · rw [if_neg hz]

theorem au_term (b : Bool) : (if b then (0 : ℤ) else 20) = if ¬ b then 20 else 0 := by
  cases b <;> simp

theorem own_term (b : Bool) : (if b then (0 : ℤ) else 15) = if ¬ b then 15 else 0 := by
  cases b <;> simp

theorem ll_term (ll gp : Bool) :
    (if ll then (0 : ℤ) else if gp then 15 else 0) = if ¬ ll ∧ gp then 15 else 0 := by
  cases ll <;> cases gp <;> simp

theorem holder_term (n : ℤ) :
    (if 0 < n then (if 100 ≤ n then (0 : ℤ) else 10) else 0) =
      if 0 < n ∧ n < 100 then 10 else 0 := by
  split_ifs <;> omega

theorem score32_eq_spec (i : ScoreInputs) : analyze_token_score32 i = specRiskScore i := by
  obtain ⟨v, liq, ad, wp, oc, mc, au, ac, hp, bt, stx, px, ll, gp, lpc, own, hc, mint, tp, bl, ch⟩ := i
  rcases ad with _ | d <;> rcases hc with _ | n <;>
    simp only [analyze_token_score32, specRiskScore, liq_term, whale_term, mc_term,
      tax_term, au_term, own_term, ll_term, holder_term, zero_add]

theorem score35_eq_spec (i : ScoreInputs) : analyze_token_score35 i = specRiskScore i := by
  obtain ⟨v, liq, ad, wp, oc, mc, au, ac, hp, bt, stx, px, ll, gp, lpc, own, hc, mint, tp, bl, ch⟩ := i
  rcases ad with _ | d <;> rcases hc with _ | n <;>
    simp only [analyze_token_score35, specRiskScore, liq_term, whale_term, mc_term,
      tax_term, au_term, own_term, ll_term, holder_term, zero_add]

theorem specRiskScore_nonneg (i : ScoreInputs) : 0 ≤ specRiskScore i := by
  obtain ⟨v, liq, ad, wp, oc, mc, au, ac, hp, bt, stx, px, ll, gp, lpc, own, hc, mint, tp, bl, ch⟩ := i
  rcases ad with _ | d <;> rcases hc with _ | n <;>
    · simp only [specRiskScore]
      refine le_min ?_ (by norm_num)
      repeat' apply add_nonneg
      all_goals first
        | (split <;> norm_num)
        | norm_num

theorem specRiskScore_le_100 (i : ScoreInputs) : specRiskScore i ≤ 100 :=
  min_le_right _ _

/--
C1: for every combination of fetched provider inputs, the `analyze_token`
risk score (in both src/Update32.py and src/Update35.py) is the sum of the
hard-coded weights of the threshold checks whose conditions hold — 20 for
unverified, 20 for liquidity below $500, 15 for age under 7 days or
unknown, 15 for max holder percent above 30, 15 for owner-can-change-
balance, 10 for nonzero market cap below $1,000,000, 20 for no audit, 20
for risky admin functions, 30 for honeypot, 10 for buy or sell tax above
5%, 15 for proxy, 15 for liquidity not locked with security data present,
10 for fewer than 2 LP holders on non-Solana chains with security data,
15 for ownership not renounced, 10 for positive holder count below 100,
10 for mintable, 10 for pausable transfers, 15 for blacklist — clamped to
100; in particular 0 ≤ score ≤ 100.
-/
theorem c1_risk_score_weighted_sum_clamped :
    ∀ i : ScoreInputs,
      analyze_token_score32 i = specRiskScore i ∧
      analyze_token_score35 i = specRiskScore i ∧
      0 ≤ analyze_token_score32 i ∧ analyze_token_score32 i ≤ 100 ∧
      0 ≤ analyze_token_score35 i ∧ analyze_token_score35 i ≤ 100 := by
  intro i
  have h32 := score32_eq_spec i
  have h35 := score35_eq_spec i
  refine ⟨h32, h35, ?_, ?_, ?_, ?_⟩
  · rw [h32]; exact specRiskScore_nonneg i
  · rw [h32]; exact specRiskScore_le_100 i
  · rw [h35]; exact specRiskScore_nonneg i
  · rw [h35]; exact specRiskScore_le_100 i

/--
C3: the claim says a non-premium user's first three `can_scan` calls
return True and every later call returns False. The code instead admits
four scans: the first call finds no `users` row, inserts one with
`total_scans = 0` and returns True without counting that scan, so the
fourth call still sees `total_scans = 2 < 3` and returns True; only the
fifth returns False. The quota gate of `analyze_token` itself does reply
with the upgrade prompt once `can_scan` is False.
-/
theorem c3_free_scan_quota :
    (can_scan false none).1 = true ∧ (can_scan false none).2 = some 0 ∧
    (can_scan false (some 0)).1 = true ∧ (can_scan false (some 0)).2 = some 1 ∧
    (can_scan false (some 1)).1 = true ∧ (can_scan false (some 1)).2 = some 2 ∧
    (can_scan false (some 2)).1 = true ∧ (can_scan false (some 2)).2 = some 3 ∧
    (can_scan false (some 3)).1 = false ∧
    analyze_token_gate false = ScanReply.upgradePrompt ∧
    analyze_token_gate true = ScanReply.report := by
  decide

/--
C4: every external-data fetch function returns its empty/default value
instead of propagating the exception raised by the guarded HTTP request
or response parsing: `etherscan_data` and `solana_data` return `{}`,
`dexscreener_data`, `goplus_data` and `coingecko_description` return
`None`, `get_launch_date` returns `(None, None, None)`, and
`get_current_price` / `get_current_liquidity` return `"0"`.
-/
theorem c4_fetch_defaults_on_error :
    ∀ (e : Err) (chain : Chain) (now : ℚ),
      etherscan_data (Except.error e) = [] ∧
      solana_data (Except.error e) = [] ∧
      dexscreener_data now (Except.error e) = none ∧
      goplus_data chain (Except.error e) = none ∧
      coingecko_description chain (Except.error e) = none ∧
      get_launch_date chain now (Except.error e) = (none, none, none) ∧
      get_current_price now (Except.error e) = "0" ∧
      get_current_liquidity now (Except.error e) = "0" := by
  intro e chain now
  refine ⟨rfl, rfl, rfl, rfl, ?_, ?_, rfl, rfl⟩ <;> cases chain <;> rfl

/--
C5 counterexample: the program does not create exactly one table — the
schema of src/Update35.py creates two (`users` at line 43 and `alerts`
at line 44).
-/
theorem c5_counterexample :
    createdTables.length ≠ 1 ∧ createdTables = [TableName.users, TableName.alerts] := by
  decide

/--
C5 (amended): the persistence layer is one SQLite database with exactly
two tables, `users` and `alerts`, and every read and write statement the
program executes targets one of those two tables.
-/
theorem c5_amended_two_tables :
    createdTables.length = 2 ∧
    dbStatements.all (fun s => createdTables.contains s.table) = true := by
  decide

/--
C8: the risk-scoring heuristic is identical across the two program
versions: on the same fetched provider data the score accumulations of
`analyze_token` in src/Update32.py and src/Update35.py agree, and the two
`get_risk_label` functions are extensionally equal.
-/
theorem c8_versions_extensionally_equal :
    (∀ i : ScoreInputs, analyze_token_score32 i = analyze_token_score35 i) ∧
    (∀ s : ℤ, get_risk_label32 s = get_risk_label35 s) :=
  ⟨fun i => (score32_eq_spec i).trans (score35_eq_spec i).symm, fun _ => rfl⟩

/--
C10: a POST to /webhook whose body cannot be parsed as a Stripe event or
whose stripe-signature header fails verification is answered with HTTP
status 400, and the `users` table is left unchanged.
-/
theorem c10_webhook_invalid_rejected_unchanged :
    ∀ (now : ℤ) (users : List UserRow) (e : WebhookErr),
      webhook now (Except.error e) users = (400, users) :=
  fun _ _ _ => rfl

theorem alertFires_iff (fp fl : String → Option ℚ) (r : AlertRec) :
    alertFires fp fl r = true ↔
      ∃ v, alertCurrent fp fl r = some v ∧
        ((r.direction = "increase" ∧ r.set_value * (1 + r.percent / 100) ≤ v) ∨
         (r.direction = "decrease" ∧ v ≤ r.set_value * (1 - r.percent / 100))) := by
  unfold alertFires
  cases h : alertCurrent fp fl r with
  | none => simp
  | some v =>
    simp only [decide_eq_true_eq, Option.some.injEq]
    constructor
    · rintro (⟨hd, hle⟩ | ⟨hd, hle⟩)
      · refine ⟨v, rfl, Or.inl ⟨hd, ?_⟩⟩
        rwa [alertThreshold, if_pos hd] at hle
      · refine ⟨v, rfl, Or.inr ⟨hd, ?_⟩⟩
        have hne : ¬ r.direction = "increase" := by rw [hd]; decide
        rwa [alertThreshold, if_neg hne] at hle
    · rintro ⟨w, rfl, (⟨hd, hle⟩ | ⟨hd, hle⟩)⟩
      · exact Or.inl ⟨hd, by rwa [alertThreshold, if_pos hd]⟩
      · have hne : ¬ r.direction = "increase" := by rw [hd]; decide
        exact Or.inr ⟨hd, by rwa [alertThreshold, if_neg hne]⟩

theorem sweepNotify_eq (fp fl : String → Option ℚ) (st : List AlertRec) :
    sweepNotify fp fl st = (st.filter (alertFires fp fl)).map alertKey := by
  induction st with
  | nil => rfl
  | cons a t ih =>
    by_cases h : alertFires fp fl a = true
    · simp [sweepNotify, h, List.filter_cons, ih]
    · simp [sweepNotify, h, List.filter_cons, ih]

theorem mem_sweepNotify_iff (fp fl : String → Option ℚ) (st : List AlertRec)
    (k : ℤ × String) :
    k ∈ sweepNotify fp fl st ↔
      ∃ r, r ∈ st ∧ alertFires fp fl r = true ∧ alertKey r = k := by
  rw [sweepNotify_eq]
  simp only [List.mem_map, List.mem_filter]
  constructor
  · rintro ⟨r, ⟨hr, hf⟩, hk⟩
    exact ⟨r, hr, hf, hk⟩
  · rintro ⟨r, hr, hf, hk⟩
    exact ⟨r, ⟨hr, hf⟩, hk⟩

theorem key_inj {st : List AlertRec} (h : KeysDistinct st) {r r' : AlertRec}
    (hr : r ∈ st) (hr' : r' ∈ st) (hk : alertKey r = alertKey r') : r = r' := by
  induction st with
  | nil => cases hr
  | cons a t ih =>
    rcases List.pairwise_cons.mp h with ⟨ha, ht⟩
    rcases List.mem_cons.mp hr with h1 | h1
    · rcases List.mem_cons.mp hr' with h2 | h2
      · rw [h1, h2]
      · subst h1
        exact absurd hk (ha _ h2)
    · rcases List.mem_cons.mp hr' with h2 | h2
      · subst h2
        exact absurd hk.symm (ha _ h1)
      · exact ih ht h1 h2

theorem notify_iff_fires (fp fl : String → Option ℚ) {st : List AlertRec}
    {r : AlertRec} (hd : KeysDistinct st) (hr : r ∈ st) :
    alertKey r ∈ (alert_check fp fl st).1 ↔ alertFires fp fl r = true := by
  show alertKey r ∈ sweepNotify fp fl st ↔ _
  rw [mem_sweepNotify_iff]
  constructor
  · rintro ⟨r', hr', hf', hk'⟩
    rwa [key_inj hd hr' hr hk'] at hf'
  · intro hf
    exact ⟨r, hr, hf, rfl⟩

theorem alert_check_snd_eq (fp fl : String → Option ℚ) {st : List AlertRec}
    (hd : KeysDistinct st) :
    (alert_check fp fl st).2 = st.filter (fun r => ! alertFires fp fl r) := by
  show st.filter _ = _
  refine List.filter_congr ?_
  intro r hr
  have h := notify_iff_fires fp fl hd hr
  by_cases hf : alertFires fp fl r = true
  · have hmem : alertKey r ∈ sweepNotify fp fl st := h.mpr hf
    simp [hf, hmem]
  · have hb : alertFires fp fl r = false := Bool.eq_false_iff.mpr hf
    have hmem : alertKey r ∉ sweepNotify fp fl st := fun hm => hf (h.mp hm)
    simp [hb, hmem]

/--
C2: in one sweep of `alert_check`, a stored alert with baseline
`set_value`, percentage `percent` and a direction produces a notification
for its user exactly when the freshly fetched current value `v` exists
(the fetch did not return the "0" sentinel) and satisfies
`v ≥ set_value * (1 + percent/100)` for direction 'increase', or
`v ≤ set_value * (1 - percent/100)` for direction 'decrease'; an alert
whose value could not be fetched is skipped.
-/
theorem c2_alert_sweep_notifies_iff (fp fl : String → Option ℚ)
    (st : List AlertRec) (r : AlertRec) (hd : KeysDistinct st) (hr : r ∈ st) :
    alertKey r ∈ (alert_check fp fl st).1 ↔
      ∃ v, alertCurrent fp fl r = some v ∧
        ((r.direction = "increase" ∧ r.set_value * (1 + r.percent / 100) ≤ v) ∨
         (r.direction = "decrease" ∧ v ≤ r.set_value * (1 - r.percent / 100))) :=
  (notify_iff_fires fp fl hd hr).trans (alertFires_iff fp fl r)

/-- C2 witness: a concrete price alert at baseline 100 with a 10%
increase threshold; the fetched current price 120 exceeds the threshold
110, and the sweep over the singleton store notifies the alert's key. -/
theorem c2_alert_sweep_notifies_iff_witness :
    alertKey ⟨1, "a", 100, 10, "increase", "T", "price"⟩ ∈
        (alert_check (fun _ => some 120) (fun _ => none)
          [⟨1, "a", 100, 10, "increase", "T", "price"⟩]).1 ↔
      ∃ v, alertCurrent (fun _ => some 120) (fun _ => none)
            ⟨1, "a", 100, 10, "increase", "T", "price"⟩ = some v ∧
        (((⟨1, "a", 100, 10, "increase", "T", "price"⟩ : AlertRec).direction = "increase" ∧
            (100 : ℚ) * (1 + 10 / 100) ≤ v) ∨
         ((⟨1, "a", 100, 10, "increase", "T", "price"⟩ : AlertRec).direction = "decrease" ∧
            v ≤ (100 : ℚ) * (1 - 10 / 100))) :=
  c2_alert_sweep_notifies_iff (fun _ => some 120) (fun _ => none)
    [⟨1, "a", 100, 10, "increase", "T", "price"⟩]
    ⟨1, "a", 100, 10, "increase", "T", "price"⟩
    (by simp [KeysDistinct]) (by simp)

/--
C7: the alert sweep is registered on a fixed-interval timer repeating
every 60 seconds (`run_repeating(alert_check, interval=60, first=0)`),
and whenever a stored alert's threshold condition holds at a sweep (its
fetched current value fires the comparison), the notification for that
alert's user is pushed during that same sweep.
-/
theorem c7_alert_polling_interval_and_push :
    alert_check_job.interval = 60 ∧ alert_check_job.first = 0 ∧
    ∀ (fp fl : String → Option ℚ) (st : List AlertRec) (r : AlertRec),
      r ∈ st → alertFires fp fl r = true →
      alertKey r ∈ (alert_check fp fl st).1 := by
  refine ⟨rfl, rfl, ?_⟩
  intro fp fl st r hr hf
  show alertKey r ∈ sweepNotify fp fl st
  exact (mem_sweepNotify_iff fp fl st (alertKey r)).mpr ⟨r, hr, hf, rfl⟩

/-- C7 witness: a concrete liquidity alert at baseline 1000 with a 5%
decrease threshold; the fetched current liquidity 900 is below the
threshold 950, so the sweep pushes the notification. -/
theorem c7_alert_polling_interval_and_push_witness :
    alertKey ⟨2, "b", 1000, 5, "decrease", "L", "liquidity"⟩ ∈
      (alert_check (fun _ => none) (fun _ => some 900)
        [⟨2, "b", 1000, 5, "decrease", "L", "liquidity"⟩]).1 :=
  c7_alert_polling_interval_and_push.2.2 (fun _ => none) (fun _ => some 900)
    [⟨2, "b", 1000, 5, "decrease", "L", "liquidity"⟩]
    ⟨2, "b", 1000, 5, "decrease", "L", "liquidity"⟩
    (by simp) (by norm_num [alertFires, alertCurrent, alertThreshold]; decide)

/--
C9: one sweep of `alert_check` removes from the store exactly the alerts
whose notification was sent during that sweep and keeps every other
record unchanged (the surviving store is a filter of the original, so
every surviving record is byte-identical, with the same `set_value`,
`percent`, `direction`, `name` and `alert_type`); consequently an alert
that fired is gone and cannot be notified again by a later sweep.
-/
theorem c9_alert_sweep_frame (fp fl : String → Option ℚ) (st : List AlertRec)
    (hd : KeysDistinct st) :
    (alert_check fp fl st).2 = st.filter (fun r => ! alertFires fp fl r) ∧
    (∀ r, r ∈ st → alertFires fp fl r = false → r ∈ (alert_check fp fl st).2) ∧
    (∀ r, r ∈ st → alertFires fp fl r = true →
        alertKey r ∈ (alert_check fp fl st).1 ∧ r ∉ (alert_check fp fl st).2) ∧
    (∀ (fp2 fl2 : String → Option ℚ) (r : AlertRec), r ∈ st →
        alertFires fp fl r = true →
        alertKey r ∉ (alert_check fp2 fl2 (alert_check fp fl st).2).1) := by
  have hsnd := alert_check_snd_eq fp fl hd
  refine ⟨hsnd, ?_, ?_, ?_⟩
  · intro r hr hf
    rw [hsnd]
    exact List.mem_filter.mpr ⟨hr, by simp [hf]⟩
  · intro r hr hf
    refine ⟨(notify_iff_fires fp fl hd hr).mpr hf, ?_⟩
    rw [hsnd]
    intro hmem
    have hq := (List.mem_filter.mp hmem).2
    simp [hf] at hq
  · intro fp2 fl2 r hr hf hmem
    have hmem' : alertKey r ∈ sweepNotify fp2 fl2 (alert_check fp fl st).2 := hmem
    obtain ⟨r', hr', hf', hk'⟩ := (mem_sweepNotify_iff _ _ _ _).mp hmem'
    rw [hsnd] at hr'
    obtain ⟨hr'st, hq⟩ := List.mem_filter.mp hr'
    have heq : r' = r := key_inj hd hr'st hr hk'
    rw [heq] at hq
    simp [hf] at hq

/-- C9 witness: a sweep over a concrete singleton store whose one price
alert fires (current 120 against threshold 110) leaves exactly the
filtered (here: empty) store behind. -/
theorem c9_alert_sweep_frame_witness :
    (alert_check (fun _ => some 120) (fun _ => none)
        [⟨3, "c", 100, 10, "increase", "W", "price"⟩]).2 =
      List.filter (fun r => ! alertFires (fun _ => some 120) (fun _ => none) r)
        [⟨3, "c", 100, 10, "increase", "W", "price"⟩] :=
  (c9_alert_sweep_frame (fun _ => some 120) (fun _ => none)
    [⟨3, "c", 100, 10, "increase", "W", "price"⟩] (by simp [KeysDistinct])).1

/--
C6 counterexample: `solana_data` does not issue one request per call —
a call on an asset without an offchain `json_uri` issues three requests
(`getAsset`, `getTokenSupply`, `getTokenLargestAccounts`), never one.
-/
theorem c6_counterexample :
    (solanaEndpoints none).length = 3 ∧ (solanaEndpoints none).length ≠ 1 := by
  decide

/--
C6 (amended): `etherscan_data`, `dexscreener_data` and `goplus_data`
each issue one request to their fixed endpoint per call and
`coingecko_description` at most one (none for Solana), while
`solana_data` issues three or four (four when the asset carries an
offchain `json_uri`). Only `etherscan_data` returns a flat mapping of
scalar values: the mappings returned by `dexscreener_data`,
`coingecko_description` and `solana_data` always contain nested list or
mapping values (`socials`/`websites`/`baseToken`, `tags`/`links`, and
`socials`/`holders` respectively), and `goplus_data` returns the raw
provider record updated in place, retaining the nested `holders` list
whenever the raw record has one.
-/
theorem c6_amended_requests_and_result_shapes :
    (∀ chain, (etherscanEndpoints chain).length = 1) ∧
    dexscreenerEndpoints.length = 1 ∧
    (∀ chain, (goplusEndpoints chain).length = 1) ∧
    (∀ chain, (coingeckoEndpoints chain).length ≤ 1) ∧
    (∀ uri, (solanaEndpoints uri).length = 3 ∨ (solanaEndpoints uri).length = 4) ∧
    (∀ resp, (etherscan_data resp).all (fun kv => kv.2.isScalar) = true) ∧
    (∀ (now : ℚ) (p : DsPair) (rest : List DsPair),
        dexscreener_data now (Except.ok (p :: rest)) = some (dsDict now p)) ∧
    (∀ (now : ℚ) (p : DsPair),
        (dsDict now p).lookup "socials" = some (Value.vList p.socials) ∧
        (dsDict now p).lookup "websites" = some (Value.vList p.websites) ∧
        (dsDict now p).lookup "baseToken" = some (Value.vDict p.baseToken)) ∧
    (∀ r : CgRaw, coingecko_description Chain.eth (Except.ok r) =
        (if r.hasError then none else some (cgDict r))) ∧
    (∀ r : CgRaw,
        (cgDict r).lookup "tags" = some (Value.vList (r.categories.getD [])) ∧
        (cgDict r).lookup "links" = some (Value.vDict r.links)) ∧
    (∀ r : SolRaw, solana_data (Except.ok r) = solDict r) ∧
    (∀ r : SolRaw,
        (solDict r).lookup "socials" = some (Value.vList r.socials) ∧
        (solDict r).lookup "holders" = some (Value.vList (solHolders r))) ∧
    (∀ (chain : Chain) (r : GpRaw),
        goplus_data chain (Except.ok (some r)) = some (goplusDict chain r)) ∧
    (∀ (chain : Chain) (r : GpRaw),
        (goplusDict chain r).lookup "holders" =
          r.holders.map (fun hs => Value.vList (hs.map Value.vNum))) := by
  refine ⟨?_, rfl, ?_, ?_, ?_, ?_, ?_, ?_, ?_, ?_, ?_, ?_, ?_, ?_⟩
  · intro chain
    cases chain <;> rfl
  · intro chain
    cases chain <;> rfl
  · intro chain
    cases chain <;> decide
  · intro uri
    cases uri with
    | none => left; rfl
    | some u => right; rfl
  · intro resp
    rcases resp with e | r
    · rfl
    · simp only [etherscan_data]
      by_cases h : r.status = some "1"
      · rw [if_pos h]
        rcases r.result with _ | ⟨info, rest⟩
        · rfl
        · rfl
      · rw [if_neg h]
        rfl
  · intro now p rest
    rfl
  · intro now p
    exact ⟨rfl, rfl, rfl⟩
  · intro r
    rfl
  · intro r
    exact ⟨rfl, rfl⟩
  · intro r
    rfl
  · intro r
    exact ⟨rfl, rfl⟩
  · intro chain r
    rfl
  · intro chain r
    rcases hh : r.holders with _ | hs <;>
      rcases hl : r.lp_holders with _ | ls <;>
        cases chain <;> simp [goplusDict, hh, hl]

end TokenTrust
